import Mathlib

/-!
Shallow embedding of `src/gistapi/gistapi.py`.

The module implements a Flask endpoint `search` that, given a JSON body
with `username` and `pattern`, lists the user's gists via
`gists_for_user`, fetches every file's raw content, and appends the
gist's canonical URL to `matches` for every file whose content matches
the regular expression.

Modelling choices, all taken from the source:
  * The upstream HTTP world is a pair of response functions
    (`Upstream.listing` for `requests.get` on the listing URL,
    `Upstream.raw` for `session.get` on a raw-content URL).
  * Python exceptions that the code does not catch are `Except.error`
    values (`PyExc`); a `Flask` JSON response is an `Except.ok` value.
  * The Python `re` engine is not part of the repository; it is
    abstracted as a deterministic `Regex` record: `valid p` says whether
    the pattern compiles, `test p s` is the boolean outcome of
    `re.search(p, s)` for a valid pattern.  `re.search(None, s)` raises
    `TypeError`; an invalid pattern raises `re.error` at the call.
  * JSON bodies returned by the listing endpoint are either an array of
    gist objects (`Json.arr`) or some other JSON value (`Json.other`),
    which is all the code distinguishes (`type(gists) is list` plus
    truthiness).
  * The instrumented pipeline (`searchT`) additionally returns the list
    of outbound HTTP requests in the order they are issued, so that
    claims about which network calls happen are statable.
-/

namespace Gistapi

/-- One value of the `files` mapping of a gist object: the code reads
`file['raw_url']` only. -/
structure GistFile where
  filename : String
  raw_url : String
deriving DecidableEq

/-- One element of the JSON array returned by the listing endpoint: the
code reads `gist['id']` and iterates `gist['files'].values()` in
insertion order, which is the order of the `files` list here. -/
structure Gist where
  id : String
  files : List GistFile
deriving DecidableEq

/-- A parsed JSON body from the listing endpoint: an array of gists, or
any other JSON value (error objects, null, strings, ...). -/
inductive Json where
  | arr (gists : List Gist)
  | other (v : String)
deriving DecidableEq

/-- Outcome of `requests.get` on the listing URL: a 2xx response with a
JSON body, a non-2xx response whose body may or may not parse as JSON,
or a transport-level failure (connection error / timeout), which raises. -/
inductive ListingResponse where
  | success (body : Json)
  | failure (status : Nat) (body : Option Json)
  | transport
deriving DecidableEq

/-- Outcome of `session.get` on a raw-content URL: any HTTP response
(the code never checks the status; `.text` is read regardless), or a
transport-level failure, which raises. -/
inductive RawResponse where
  | response (status : Nat) (text : String)
  | transport
deriving DecidableEq

/-- The upstream provider, as response functions keyed by URL. -/
structure Upstream where
  listing : String → ListingResponse
  raw : String → RawResponse

/-- The Python exceptions that can escape the endpoint uncaught. -/
inductive PyExc where
  | typeError
  | regexError
  | requestException
  | jsonError
deriving DecidableEq

/-- Deterministic abstraction of the `re` module: whether a pattern
compiles, and the boolean outcome of `re.search` for valid patterns. -/
structure Regex where
  valid : String → Bool
  test : String → String → Bool

/-- `re.search(pattern, s)` as called on line 90: `None` raises
`TypeError`, an invalid pattern raises `re.error`, otherwise the match
outcome is returned. -/
def reSearch (R : Regex) (p : Option String) (s : String) : Except PyExc Bool :=
  match p with
  | none => Except.error PyExc.typeError
  | some q => if R.valid q then Except.ok (R.test q s) else Except.error PyExc.regexError

/-- Python `str.format` interpolation of a possibly-`None` value:
`'{u}'.format(u=None)` yields the literal text `None`. -/
def pyStr : Option String → String
  | none => "None"
  | some s => s

/-- The listing URL built on lines 41-43. -/
def listingUrl (username : String) : String :=
  "https://api.github.com/users/" ++ username ++ "/gists"

/-- The canonical gist URL built on lines 91-94. -/
def gistUrl (username gist_id : String) : String :=
  "https://gist.github.com/" ++ username ++ "/" ++ gist_id

/-- `gists_for_user` (lines 27-50): one GET on the listing URL;
`raise_for_status` turns a non-2xx into `HTTPError`, whose handler
returns `e.response.json()` (raising `JSONDecodeError` when the error
body is not JSON); transport errors are not caught. -/
def gists_for_user (env : Upstream) (username : String) : Except PyExc Json :=
  match env.listing (listingUrl username) with
  | ListingResponse.success body => Except.ok body
  | ListingResponse.failure _ (some body) => Except.ok body
  | ListingResponse.failure _ none => Except.error PyExc.jsonError
  | ListingResponse.transport => Except.error PyExc.requestException

/-- An outbound HTTP request, tagged by call site: the listing GET of
`gists_for_user`, or a raw-content GET of the search loop. -/
inductive Request where
  | listGists (url : String)
  | rawGet (url : String)
deriving DecidableEq

/-- The JSON body of the POST request; `post_data.get(k)` yields `None`
for a missing key, hence `Option`. -/
structure ReqBody where
  username : Option String
  pattern : Option String
deriving DecidableEq

/-- The two JSON responses the endpoint can return: the success object
of lines 96-101 (echoing `username` and `pattern`, possibly null), or
the fixed failure object of lines 103-107, which is the constant
`\x7b'error': 'not found', 'message': 'invalid user', 'status': 'fail'\x7d`. -/
inductive SearchResponse where
  | success (username pattern : Option String) (matchList : List String)
  | notFoundFail
deriving DecidableEq

/-- `session.get(url).text` (line 89): `.text` of any HTTP response,
status ignored; a transport failure raises. -/
def fetchText (env : Upstream) (url : String) : Except PyExc String :=
  match env.raw url with
  | RawResponse.response _ t => Except.ok t
  | RawResponse.transport => Except.error PyExc.requestException

/-- The inner loop of `search` over `gist['files'].values()` (lines
88-94), instrumented with the request log: fetch the raw content, test
the pattern, append the gist URL on a match. -/
def searchFilesT (R : Regex) (env : Upstream) (pattern : Option String)
    (username gist_id : String) :
    List GistFile → List String → List Request →
      List Request × Except PyExc (List String)
  | [], acc, log => (log, Except.ok acc)
  | f :: fs, acc, log =>
    let log2 := log ++ [Request.rawGet f.raw_url]
    match fetchText env f.raw_url with
    | Except.error e => (log2, Except.error e)
    | Except.ok content =>
      match reSearch R pattern content with
      | Except.error e => (log2, Except.error e)
      | Except.ok b =>
        searchFilesT R env pattern username gist_id fs
          (if b then acc ++ [gistUrl username gist_id] else acc) log2

/-- The outer loop of `search` over the gist list (lines 84-94). -/
def searchGistsT (R : Regex) (env : Upstream) (pattern : Option String)
    (username : String) :
    List Gist → List String → List Request →
      List Request × Except PyExc (List String)
  | [], acc, log => (log, Except.ok acc)
  | g :: gs, acc, log =>
    match searchFilesT R env pattern username g.id g.files acc log with
    | (log2, Except.error e) => (log2, Except.error e)
    | (log2, Except.ok acc2) => searchGistsT R env pattern username gs acc2 log2

/-- The `search` endpoint (lines 58-107), instrumented with the request
log.  `username` and `pattern` come from `post_data.get`; the gist list
is fetched with no prior validation; `if gists and type(gists) is list`
sends an empty array, any non-array JSON, and any falsy value to the
fixed failure object; otherwise every file of every gist is fetched and
matched, and the success object is returned. -/
def searchT (R : Regex) (env : Upstream) (post : ReqBody) :
    List Request × Except PyExc SearchResponse :=
  let u := pyStr post.username
  let log : List Request := [Request.listGists (listingUrl u)]
  match gists_for_user env u with
  | Except.error e => (log, Except.error e)
  | Except.ok (Json.arr gs) =>
    if gs.isEmpty then (log, Except.ok SearchResponse.notFoundFail)
    else
      match searchGistsT R env post.pattern u gs [] log with
      | (log2, Except.error e) => (log2, Except.error e)
      | (log2, Except.ok ms) =>
        (log2, Except.ok (SearchResponse.success post.username post.pattern ms))
  | Except.ok (Json.other _) => (log, Except.ok SearchResponse.notFoundFail)

/-- The endpoint's observable result: its JSON response or the uncaught
exception. -/
def search (R : Regex) (env : Upstream) (post : ReqBody) :
    Except PyExc SearchResponse :=
  (searchT R env post).2

/-- The outbound requests issued by one call of the endpoint, in order. -/
def searchLog (R : Regex) (env : Upstream) (post : ReqBody) : List Request :=
  (searchT R env post).1

/-- The `matches` list of a success response, `[]` otherwise. -/
def matchesOf : Except PyExc SearchResponse → List String
  | Except.ok (SearchResponse.success _ _ m) => m
  | _ => []

/-! ### Spec-side descriptions of the traversal -/

/-- Whether the raw fetch of a file would return an HTTP response
(rather than raise). -/
def rawOk (env : Upstream) (f : GistFile) : Bool :=
  match env.raw f.raw_url with
  | RawResponse.response _ _ => true
  | RawResponse.transport => false

/-- All raw fetches of all files of the given gists return responses. -/
def allFetchOk (env : Upstream) (gs : List Gist) : Bool :=
  gs.all (fun g => g.files.all (rawOk env))

/-- Whether a file's fetched text matches the (valid) pattern `p`. -/
def fileMatches (R : Regex) (env : Upstream) (p : String) (f : GistFile) : Bool :=
  match env.raw f.raw_url with
  | RawResponse.response _ t => R.test p t
  | RawResponse.transport => false

/-- The matches list described by the specification's traversal order:
gists in listing order, files in order within each gist, one gist-URL
entry per matching file. -/
def traversalMatches (R : Regex) (env : Upstream) (p u : String) :
    List Gist → List String
  | [] => []
  | g :: gs =>
    (g.files.filter (fileMatches R env p)).map (fun _ => gistUrl u g.id)
      ++ traversalMatches R env p u gs

/-- The raw-content requests of the traversal, in order. -/
def rawReqs : List Gist → List Request
  | [] => []
  | g :: gs => g.files.map (fun f => Request.rawGet f.raw_url) ++ rawReqs gs

/-- Whether a request targets the gist-listing endpoint. -/
def isListReq : Request → Bool
  | Request.listGists _ => true
  | Request.rawGet _ => false

/-! ### A concrete, kernel-evaluable regex engine for witnesses

Substring search stands in for `re.search` on a metacharacter-free
pattern; the single pattern `"("` stands in for an uncompilable one. -/

/-- `pfx n l` : the char list `n` is a prefix of `l`. -/
def pfx : List Char → List Char → Bool
  | [], _ => true
  | _ :: _, [] => false
  | a :: as, b :: bs => a == b && pfx as bs

/-- `hasSub n l` : the char list `n` occurs somewhere inside `l`. -/
def hasSub (n : List Char) : List Char → Bool
  | [] => pfx n []
  | c :: cs => pfx n (c :: cs) || hasSub n cs

/-- Literal substring containment on strings. -/
def substrTest (p s : String) : Bool :=
  hasSub p.toList s.toList

/-- The concrete regex engine used to instantiate theorems: every
pattern except `"("` compiles, and matching is literal substring
search. -/
def Re0 : Regex :=
  { valid := fun p => !(p == "(")
    test := substrTest }

/-! ### Concrete upstream datasets for counterexamples and witnesses -/

/-- File `a.py` of gist `g1`; its content contains `TODO`. -/
def fA : GistFile := ⟨"a.py", "rA"⟩

/-- File `b.py` of gist `g1`; its content does not match. -/
def fB : GistFile := ⟨"b.py", "rB"⟩

/-- File `c.py` of gist `g1`; its content contains `TODO`. -/
def fC : GistFile := ⟨"c.py", "rC"⟩

/-- A gist of user `alice` with three files, of which `a.py` and `c.py`
match the pattern `TODO`. -/
def g1 : Gist := ⟨"g1", [fA, fB, fC]⟩

/-- Upstream dataset: `alice` owns exactly `g1`; the three raw URLs
resolve to the contents above; everything else 404s. -/
def envAlice : Upstream :=
  { listing := fun url =>
      if url == listingUrl "alice" then ListingResponse.success (Json.arr [g1])
      else ListingResponse.failure 404 (some (Json.other "nf"))
    raw := fun url =>
      if url == "rA" then RawResponse.response 200 "x TODO x"
      else if url == "rB" then RawResponse.response 200 "done"
      else if url == "rC" then RawResponse.response 200 "TODO"
      else RawResponse.transport }

/-- The search request `username = alice, pattern = TODO`. -/
def reqAlice : ReqBody := ⟨some "alice", some "TODO"⟩

/-! ### Helper lemmas about the pipeline -/

/-- When the pattern is valid and every fetch in `fs` returns a
response, the file loop issues one raw GET per file in order and
appends one URL per matching file, in file order. -/
lemma searchFilesT_ok (R : Regex) (env : Upstream) (p u gid : String)
    (hv : R.valid p = true) :
    ∀ (fs : List GistFile), fs.all (rawOk env) = true →
    ∀ (acc : List String) (log : List Request),
    searchFilesT R env (some p) u gid fs acc log =
      (log ++ fs.map (fun f => Request.rawGet f.raw_url),
       Except.ok (acc ++ (fs.filter (fileMatches R env p)).map
         (fun _ => gistUrl u gid))) := by
  intro fs
  induction fs with
  | nil => intro _ acc log; simp [searchFilesT]
  | cons f fs ih =>
    intro hok acc log
    simp only [List.all_cons, Bool.and_eq_true] at hok
    obtain ⟨hf, hfs⟩ := hok
    cases hr : env.raw f.raw_url with
    | transport => rw [rawOk, hr] at hf; simp at hf
    | response s t =>
      cases hm : R.test p t with
      | true =>
        simp [searchFilesT, fetchText, hr, reSearch, hv, ih hfs,
              List.filter_cons, fileMatches, hm]
      | false =>
        simp [searchFilesT, fetchText, hr, reSearch, hv, ih hfs,
              List.filter_cons, fileMatches, hm]

/-- When the pattern is valid and every fetch of every gist returns a
response, the gist loop issues the traversal's raw GETs in order and
returns the traversal-ordered matches. -/
lemma searchGistsT_ok (R : Regex) (env : Upstream) (p u : String)
    (hv : R.valid p = true) :
    ∀ (gs : List Gist), allFetchOk env gs = true →
    ∀ (acc : List String) (log : List Request),
    searchGistsT R env (some p) u gs acc log =
      (log ++ rawReqs gs,
       Except.ok (acc ++ traversalMatches R env p u gs)) := by
  intro gs
  induction gs with
  | nil => intro _ acc log; simp [searchGistsT, rawReqs, traversalMatches]
  | cons g gs ih =>
    intro hok acc log
    simp only [allFetchOk, List.all_cons, Bool.and_eq_true] at hok
    obtain ⟨hg, hgs⟩ := hok
    have hih := ih hgs
    simp [searchGistsT, searchFilesT_ok R env p u g.id hv g.files hg acc log,
          hih, rawReqs, traversalMatches]

/-- The file loop never issues a listing request: the listing requests
in its log are those already in the incoming log. -/
lemma searchFilesT_logFilter (R : Regex) (env : Upstream)
    (pat : Option String) (u gid : String) :
    ∀ (fs : List GistFile) (acc : List String) (log : List Request),
    ((searchFilesT R env pat u gid fs acc log).1).filter isListReq =
      log.filter isListReq := by
  intro fs
  induction fs with
  | nil => intro acc log; simp [searchFilesT]
  | cons f fs ih =>
    intro acc log
    simp only [searchFilesT]
    cases hr : fetchText env f.raw_url with
    | error e => simp [List.filter_append, isListReq]
    | ok content =>
      cases hm : reSearch R pat content with
      | error e => simp [hm, List.filter_append, isListReq]
      | ok b => simp [hm, ih, List.filter_append, isListReq]

/-- The gist loop never issues a listing request either. -/
lemma searchGistsT_logFilter (R : Regex) (env : Upstream)
    (pat : Option String) (u : String) :
    ∀ (gs : List Gist) (acc : List String) (log : List Request),
    ((searchGistsT R env pat u gs acc log).1).filter isListReq =
      log.filter isListReq := by
  intro gs
  induction gs with
  | nil => intro acc log; simp [searchGistsT]
  | cons g gs ih =>
    intro acc log
    simp only [searchGistsT]
    cases hf : searchFilesT R env pat u g.id g.files acc log with
    | mk log2 r =>
      have hlog : log2.filter isListReq = log.filter isListReq := by
        have h2 := searchFilesT_logFilter R env pat u g.id g.files acc log
        rw [hf] at h2
        exact h2
      cases r with
      | error e => simpa using hlog
      | ok acc2 => rw [ih]; exact hlog

/-- A non-2xx listing response with a JSON object body lands in the
`else` branch and yields the fixed failure object, whatever the status. -/
lemma search_fail_of_other (R : Regex) (env : Upstream) (post : ReqBody)
    (s : Nat) (b : String)
    (hl : env.listing (listingUrl (pyStr post.username)) =
      ListingResponse.failure s (some (Json.other b))) :
    search R env post = Except.ok SearchResponse.notFoundFail := by
  simp [search, searchT, gists_for_user, hl]

/-- A 2xx listing response with an empty gist array is falsy and also
lands in the `else` branch. -/
lemma search_fail_of_emptyArr (R : Regex) (env : Upstream) (post : ReqBody)
    (hl : env.listing (listingUrl (pyStr post.username)) =
      ListingResponse.success (Json.arr [])) :
    search R env post = Except.ok SearchResponse.notFoundFail := by
  simp [search, searchT, gists_for_user, hl]

/-- The success path in full: valid pattern, nonempty listing, all
fetches respond.  The log is the listing request followed by the
traversal's raw GETs, and the matches are the traversal's matches. -/
lemma searchT_ok (R : Regex) (env : Upstream) (post : ReqBody)
    (p : String) (gs : List Gist)
    (hp : post.pattern = some p) (hv : R.valid p = true)
    (hl : env.listing (listingUrl (pyStr post.username)) =
      ListingResponse.success (Json.arr gs))
    (hne : gs ≠ [])
    (hok : allFetchOk env gs = true) :
    searchT R env post =
      (Request.listGists (listingUrl (pyStr post.username)) :: rawReqs gs,
       Except.ok (SearchResponse.success post.username post.pattern
         (traversalMatches R env p (pyStr post.username) gs))) := by
  have hemp : gs.isEmpty = false := by
    cases gs with
    | nil => exact absurd rfl hne
    | cons a l => rfl
  simp [searchT, gists_for_user, hl, hp, hemp,
        searchGistsT_ok R env p (pyStr post.username) hv gs hok]

/-- Upstream dataset: `bob` exists and has zero gists (the listing is a
2xx response with an empty JSON array). -/
def envEmpty : Upstream :=
  { listing := fun url =>
      if url == listingUrl "bob" then ListingResponse.success (Json.arr [])
      else ListingResponse.failure 404 (some (Json.other "nf"))
    raw := fun _ => RawResponse.transport }

/-- The search request `username = bob, pattern = TODO`. -/
def reqBob : ReqBody := ⟨some "bob", some "TODO"⟩

/-- The search request `username = alice` with the uncompilable
pattern. -/
def reqParen : ReqBody := ⟨some "alice", some "("⟩

/-- A gist with two files whose second raw fetch times out; the first
file's content matches `TODO`. -/
def gTimeout : Gist := ⟨"g4", [⟨"ok.py", "rTa"⟩, ⟨"bad.py", "rTb"⟩]⟩

/-- Upstream dataset for the partial-failure scenario: `alice` owns
`gTimeout`; the first raw URL responds, the second raises. -/
def envTimeout : Upstream :=
  { listing := fun url =>
      if url == listingUrl "alice" then ListingResponse.success (Json.arr [gTimeout])
      else ListingResponse.failure 404 (some (Json.other "nf"))
    raw := fun url =>
      if url == "rTa" then RawResponse.response 200 "TODO here"
      else RawResponse.transport }

/-- Upstream where the listing for `ghost` is a 404 with a JSON error
body (unknown user). -/
def envGhost404 : Upstream :=
  { listing := fun _ => ListingResponse.failure 404 (some (Json.other "m404"))
    raw := fun _ => RawResponse.transport }

/-- Upstream where the listing for `ghost` is a 500 with a JSON error
body (server-side failure, the user may well exist). -/
def envGhost500 : Upstream :=
  { listing := fun _ => ListingResponse.failure 500 (some (Json.other "m500"))
    raw := fun _ => RawResponse.transport }

/-- Upstream where the listing is a 403 rate-limit with a JSON body. -/
def envRate403 : Upstream :=
  { listing := fun _ => ListingResponse.failure 403 (some (Json.other "rate limit"))
    raw := fun _ => RawResponse.transport }

/-- The search request `username = ghost, pattern = TODO`. -/
def reqGhost : ReqBody := ⟨some "ghost", some "TODO"⟩

/-- Page 1 gist of the paginated dataset; its file content matches. -/
def gP1 : Gist := ⟨"p1", [⟨"f1.py", "rP1"⟩]⟩

/-- Page 2 gist of the paginated dataset; its file content matches
too, but the code never requests page 2. -/
def gP2 : Gist := ⟨"p2", [⟨"f2.py", "rP2"⟩]⟩

/-- A paginated upstream: the plain listing URL serves page 1 only,
and the page-2 URL serves the remaining gist. -/
def envPaged : Upstream :=
  { listing := fun url =>
      if url == listingUrl "alice" then ListingResponse.success (Json.arr [gP1])
      else if url == listingUrl "alice" ++ "?page=2" then
        ListingResponse.success (Json.arr [gP2])
      else ListingResponse.failure 404 (some (Json.other "nf"))
    raw := fun url =>
      if url == "rP1" then RawResponse.response 200 "TODO p1"
      else if url == "rP2" then RawResponse.response 200 "TODO p2"
      else RawResponse.transport }

/-- The gist of the literal user `None`. -/
def gNone : Gist := ⟨"n1", [⟨"f.py", "rN"⟩]⟩

/-- Upstream in which the literal username `None` resolves: the code
reaches it when the request body omits `username`. -/
def envNone : Upstream :=
  { listing := fun url =>
      if url == listingUrl "None" then ListingResponse.success (Json.arr [gNone])
      else ListingResponse.failure 404 (some (Json.other "nf"))
    raw := fun url =>
      if url == "rN" then RawResponse.response 200 "body"
      else RawResponse.transport }

/-- A request body with both keys missing: `post_data.get` yields
`None` for each. -/
def reqNone : ReqBody := ⟨none, none⟩

/-! ### Claims -/

/-- Claim C1, counterexample: over `envAlice`, the pattern `TODO`
matches exactly files `a.py` and `c.py`, both owned by gist `g1`, and
the returned matches list contains `g1`'s canonical URL twice — not at
most once as claimed: the code appends on every matching file and never
deduplicates. -/
theorem C1_counterexample :
    search Re0 envAlice reqAlice =
      Except.ok (SearchResponse.success (some "alice") (some "TODO")
        ["https://gist.github.com/alice/g1", "https://gist.github.com/alice/g1"]) ∧
    List.count "https://gist.github.com/alice/g1"
      (matchesOf (search Re0 envAlice reqAlice)) = 2 :=
  ⟨rfl, by decide⟩

/-- Claim C1, amended: the matches list contains a gist's canonical URL
once per matching file, not at most once per gist: for a listing of a
single gist `g` with a valid pattern and all fetches responding, the
number of occurrences of `g`'s URL equals the number of matching files
of `g`. -/
theorem C1_url_once_per_matching_file (R : Regex) (env : Upstream)
    (post : ReqBody) (p : String) (g : Gist)
    (hp : post.pattern = some p) (hv : R.valid p = true)
    (hl : env.listing (listingUrl (pyStr post.username)) =
      ListingResponse.success (Json.arr [g]))
    (hok : allFetchOk env [g] = true) :
    List.count (gistUrl (pyStr post.username) g.id)
        (matchesOf (search R env post)) =
      (g.files.filter (fileMatches R env p)).length := by
  have h := searchT_ok R env post p [g] hp hv hl (by simp) hok
  simp [search, h, matchesOf, traversalMatches, List.map_const',
        List.count_replicate_self]

/-- Claim C1, witness: instantiating the amended theorem on `envAlice`,
where gist `g1` has two matching files. -/
theorem C1_witness :
    List.count (gistUrl (pyStr reqAlice.username) g1.id)
        (matchesOf (search Re0 envAlice reqAlice)) =
      (g1.files.filter (fileMatches Re0 envAlice "TODO")).length :=
  C1_url_once_per_matching_file Re0 envAlice reqAlice "TODO" g1 rfl rfl rfl
    (by decide)

/-- Claim C2, counterexample: `bob` has zero gists (a 2xx listing with
an empty array), yet the code returns the fixed failure object, not an
empty success: the empty list is falsy, so it takes the `else` branch. -/
theorem C2_counterexample :
    search Re0 envEmpty reqBob = Except.ok SearchResponse.notFoundFail ∧
    SearchResponse.notFoundFail ≠
      SearchResponse.success (some "bob") (some "TODO") [] :=
  ⟨rfl, by decide⟩

/-- Claim C2, amended: for every username whose gist listing succeeds
and is empty, the code returns the fixed failure object
(`error: not found, message: invalid user, status: fail`) instead of an
empty success result. -/
theorem C2_empty_listing_yields_fail (R : Regex) (env : Upstream)
    (post : ReqBody)
    (hl : env.listing (listingUrl (pyStr post.username)) =
      ListingResponse.success (Json.arr [])) :
    search R env post = Except.ok SearchResponse.notFoundFail :=
  search_fail_of_emptyArr R env post hl

/-- Claim C2, witness: instantiating the amended theorem on `envEmpty`. -/
theorem C2_witness :
    search Re0 envEmpty reqBob = Except.ok SearchResponse.notFoundFail :=
  C2_empty_listing_yields_fail Re0 envEmpty reqBob rfl

/-- Claim C3, counterexample: with the uncompilable pattern `(` the
code still issues the listing request and the first raw-content fetch,
then raises `re.error` from `re.search` — there is no validation before
network calls and no structured input-error result. -/
theorem C3_counterexample :
    searchT Re0 envAlice reqParen =
      ([Request.listGists "https://api.github.com/users/alice/gists",
        Request.rawGet "rA"],
       Except.error PyExc.regexError) :=
  rfl

/-- Claim C3, amended: the code performs no input validation at all:
the listing request is issued regardless of the pattern, and an invalid
pattern is only discovered at `re.search` after the first raw-content
fetch, where it raises an uncaught `re.error` instead of returning a
structured input-error result. -/
theorem C3_no_validation_network_first (R : Regex) (env : Upstream)
    (post : ReqBody) (p : String) (g : Gist) (gs : List Gist)
    (f : GistFile) (fs : List GistFile) (s : Nat) (t : String)
    (hp : post.pattern = some p) (hv : R.valid p = false)
    (hl : env.listing (listingUrl (pyStr post.username)) =
      ListingResponse.success (Json.arr (g :: gs)))
    (hg : g.files = f :: fs)
    (hr : env.raw f.raw_url = RawResponse.response s t) :
    searchT R env post =
      ([Request.listGists (listingUrl (pyStr post.username)),
        Request.rawGet f.raw_url],
       Except.error PyExc.regexError) := by
  simp [searchT, gists_for_user, hl, hp, searchGistsT, hg, searchFilesT,
        fetchText, hr, reSearch, hv]

/-- Claim C3, witness: instantiating the amended theorem on `envAlice`
with the pattern `(`. -/
theorem C3_witness :
    searchT Re0 envAlice reqParen =
      ([Request.listGists (listingUrl (pyStr reqParen.username)),
        Request.rawGet fA.raw_url],
       Except.error PyExc.regexError) :=
  C3_no_validation_network_first Re0 envAlice reqParen "(" g1 [] fA [fB, fC]
    200 "x TODO x" rfl rfl rfl rfl rfl

/-- Claim C4, counterexample: two files, the first fetch succeeds and
matches, the second times out — the whole request fails with the
uncaught `requests` exception and the match from the successful fetch
is lost, contradicting the claim that one bad file never cancels the
batch. -/
theorem C4_counterexample :
    search Re0 envTimeout reqAlice = Except.error PyExc.requestException ∧
    matchesOf (search Re0 envTimeout reqAlice) = [] :=
  ⟨rfl, rfl⟩

/-- Claim C4, amended: a transport failure (timeout) on any one raw
fetch aborts the entire request with an uncaught exception; no matches
are returned and there is no failure-ratio policy.  (A non-2xx raw
response, by contrast, is not even treated as a failure: its body is
matched as if it were file content, since the status is never checked.) -/
theorem C4_timeout_aborts_request (R : Regex) (env : Upstream)
    (post : ReqBody) (p gid : String) (f1 f2 : GistFile)
    (s1 : Nat) (t1 : String)
    (hp : post.pattern = some p) (hv : R.valid p = true)
    (hl : env.listing (listingUrl (pyStr post.username)) =
      ListingResponse.success (Json.arr [⟨gid, [f1, f2]⟩]))
    (h1 : env.raw f1.raw_url = RawResponse.response s1 t1)
    (h2 : env.raw f2.raw_url = RawResponse.transport) :
    search R env post = Except.error PyExc.requestException := by
  simp [search, searchT, gists_for_user, hl, hp, searchGistsT,
        searchFilesT, fetchText, h1, h2, reSearch, hv]

/-- Claim C4, witness: instantiating the amended theorem on
`envTimeout`. -/
theorem C4_witness :
    search Re0 envTimeout reqAlice = Except.error PyExc.requestException :=
  C4_timeout_aborts_request Re0 envTimeout reqAlice "TODO" "g4"
    ⟨"ok.py", "rTa"⟩ ⟨"bad.py", "rTb"⟩ 200 "TODO here" rfl rfl rfl rfl rfl

/-- Claim C5, counterexample: a 404 unknown-user listing and a 500
server-error listing produce the identical fixed failure object, so the
response neither carries a `UserNotFound` status nor distinguishes
not-found from a generic upstream error. -/
theorem C5_counterexample :
    search Re0 envGhost404 reqGhost = Except.ok SearchResponse.notFoundFail ∧
    search Re0 envGhost500 reqGhost = Except.ok SearchResponse.notFoundFail :=
  ⟨rfl, rfl⟩

/-- Claim C5, amended: for a username the provider reports as not found
(404 with a JSON body), the code returns the fixed failure object
(`status: fail`, no matches field) — and that response is identical to
the one produced by any other non-2xx listing failure with a JSON
object body, so not-found is not distinguished from a transport-level
upstream error. -/
theorem C5_notfound_conflated (R : Regex) (env1 env2 : Upstream)
    (post : ReqBody) (s2 : Nat) (b1 b2 : String)
    (h1 : env1.listing (listingUrl (pyStr post.username)) =
      ListingResponse.failure 404 (some (Json.other b1)))
    (h2 : env2.listing (listingUrl (pyStr post.username)) =
      ListingResponse.failure s2 (some (Json.other b2))) :
    search R env1 post = Except.ok SearchResponse.notFoundFail ∧
    search R env1 post = search R env2 post := by
  have a1 := search_fail_of_other R env1 post 404 b1 h1
  have a2 := search_fail_of_other R env2 post s2 b2 h2
  exact ⟨a1, a1.trans a2.symm⟩

/-- Claim C5, witness: instantiating the amended theorem on the 404 and
500 upstreams. -/
theorem C5_witness :
    search Re0 envGhost404 reqGhost = Except.ok SearchResponse.notFoundFail ∧
    search Re0 envGhost404 reqGhost = search Re0 envGhost500 reqGhost :=
  C5_notfound_conflated Re0 envGhost404 envGhost500 reqGhost 500
    "m404" "m500" rfl rfl

/-- Claim C6, counterexample: over the paginated upstream the code
issues exactly one listing request (the plain per-user URL) and never
requests page 2, although page 2 exists and its gist's file content
matches the pattern — so the page-2 gist is omitted from the matches. -/
theorem C6_counterexample :
    searchT Re0 envPaged reqAlice =
      ([Request.listGists (listingUrl "alice"), Request.rawGet "rP1"],
       Except.ok (SearchResponse.success (some "alice") (some "TODO")
         ["https://gist.github.com/alice/p1"])) ∧
    envPaged.listing (listingUrl "alice" ++ "?page=2") =
      ListingResponse.success (Json.arr [gP2]) ∧
    substrTest "TODO" "TODO p2" = true ∧
    "https://gist.github.com/alice/p2" ∉
      matchesOf (search Re0 envPaged reqAlice) :=
  ⟨rfl, rfl, rfl, by decide⟩

/-- Claim C6, amended: `gists_for_user` issues exactly one unpaginated
GET to the per-user listing endpoint and follows no pagination links:
for every search, the listing requests in the request log are exactly
the single plain listing URL, so only the first page's gists are ever
searched. -/
theorem C6_single_listing_request (R : Regex) (env : Upstream)
    (post : ReqBody) :
    (searchLog R env post).filter isListReq =
      [Request.listGists (listingUrl (pyStr post.username))] := by
  unfold searchLog searchT
  cases h : gists_for_user env (pyStr post.username) with
  | error e => simp [h, isListReq]
  | ok j =>
    cases j with
    | other v => simp [h, isListReq]
    | arr gs =>
      cases gs with
      | nil => simp [h, isListReq]
      | cons g gs2 =>
        simp only [h, List.isEmpty_cons, Bool.false_eq_true, if_false]
        cases hsg : searchGistsT R env post.pattern (pyStr post.username)
            (g :: gs2) []
            [Request.listGists (listingUrl (pyStr post.username))] with
        | mk log2 r =>
          have hh := searchGistsT_logFilter R env post.pattern
            (pyStr post.username) (g :: gs2) []
            [Request.listGists (listingUrl (pyStr post.username))]
          rw [hsg] at hh
          cases r with
          | error e => simpa [isListReq] using hh
          | ok ms => simpa [isListReq] using hh

/-- Claim C7, confirmed: on the success path (valid pattern, nonempty
listing, all fetches responding) the returned matches list is exactly
the spec-side `traversalMatches`, which walks gists in listing order
and files in order within each gist — so the output order is the
deterministic gist-then-file traversal order for the fixed upstream
response. -/
theorem C7_traversal_order (R : Regex) (env : Upstream) (post : ReqBody)
    (p : String) (gs : List Gist)
    (hp : post.pattern = some p) (hv : R.valid p = true)
    (hl : env.listing (listingUrl (pyStr post.username)) =
      ListingResponse.success (Json.arr gs))
    (hne : gs ≠ [])
    (hok : allFetchOk env gs = true) :
    search R env post =
      Except.ok (SearchResponse.success post.username post.pattern
        (traversalMatches R env p (pyStr post.username) gs)) := by
  simp [search, searchT_ok R env post p gs hp hv hl hne hok]

/-- Claim C7, witness: instantiating the traversal-order theorem on
`envAlice`. -/
theorem C7_witness :
    search Re0 envAlice reqAlice =
      Except.ok (SearchResponse.success (some "alice") (some "TODO")
        (traversalMatches Re0 envAlice "TODO" "alice" [g1])) :=
  C7_traversal_order Re0 envAlice reqAlice "TODO" [g1] rfl rfl rfl
    (by decide) rfl

/-- Claim C8, confirmed: the result is a deterministic function of the
request and the upstream responses — two upstreams that answer every
listing URL and every raw URL identically (an unchanged dataset) give
identical results, hence two runs against an unchanged upstream are
byte-identical. -/
theorem C8_deterministic (R : Regex) (env1 env2 : Upstream)
    (post : ReqBody)
    (hl : ∀ url, env1.listing url = env2.listing url)
    (hr : ∀ url, env1.raw url = env2.raw url) :
    search R env1 post = search R env2 post := by
  cases env1 with
  | mk l1 r1 =>
    cases env2 with
    | mk l2 r2 =>
      have e1 : l1 = l2 := funext hl
      have e2 : r1 = r2 := funext hr
      rw [e1, e2]

/-- Claim C8, witness: two runs over the same dataset `envAlice`. -/
theorem C8_witness :
    search Re0 envAlice reqAlice = search Re0 envAlice reqAlice :=
  C8_deterministic Re0 envAlice envAlice reqAlice (fun _ => rfl)
    (fun _ => rfl)

/-- Claim C9, confirmed: every non-2xx listing response whose body
parses as JSON (an error object — 404, 403 and 5xx alike) makes
`gists_for_user` return that body, which fails the `type(gists) is
list` test, so `search` returns the one fixed failure object regardless
of the status code: the cause is not recoverable from the response. -/
theorem C9_fixed_failure_object (R : Regex) (env : Upstream)
    (post : ReqBody) (s : Nat) (b : String)
    (hl : env.listing (listingUrl (pyStr post.username)) =
      ListingResponse.failure s (some (Json.other b))) :
    search R env post = Except.ok SearchResponse.notFoundFail :=
  search_fail_of_other R env post s b hl

/-- Claim C9, witness: a 403 rate-limit listing response yields the
same fixed failure object. -/
theorem C9_witness :
    search Re0 envRate403 reqGhost = Except.ok SearchResponse.notFoundFail :=
  C9_fixed_failure_object Re0 envRate403 reqGhost 403 "rate limit" rfl

/-- Claim C10, confirmed: a request body missing both keys is not
rejected: the code proceeds with `None`, the first outbound request is
the listing GET for the literal username `None`, and once a file body
has been fetched, `re.search(None, content)` raises an uncaught
`TypeError` instead of returning a structured error result. -/
theorem C10_missing_keys_not_rejected (R : Regex) (env : Upstream)
    (post : ReqBody) (g : Gist) (gs : List Gist) (f : GistFile)
    (fs : List GistFile) (s : Nat) (t : String)
    (hu : post.username = none) (hp : post.pattern = none)
    (hl : env.listing (listingUrl "None") =
      ListingResponse.success (Json.arr (g :: gs)))
    (hf : g.files = f :: fs)
    (hr : env.raw f.raw_url = RawResponse.response s t) :
    (searchT R env post).1.head? =
      some (Request.listGists (listingUrl "None")) ∧
    search R env post = Except.error PyExc.typeError := by
  have key : searchT R env post =
      ([Request.listGists (listingUrl "None"), Request.rawGet f.raw_url],
       Except.error PyExc.typeError) := by
    simp [searchT, hu, pyStr, gists_for_user, hl, hp, searchGistsT, hf,
          searchFilesT, fetchText, hr, reSearch]
  exact ⟨by simp [key], by simp [search, key]⟩

/-- Claim C10, witness: instantiating on `envNone` with both keys
missing. -/
theorem C10_witness :
    (searchT Re0 envNone reqNone).1.head? =
      some (Request.listGists (listingUrl "None")) ∧
    search Re0 envNone reqNone = Except.error PyExc.typeError :=
  C10_missing_keys_not_rejected Re0 envNone reqNone gNone [] ⟨"f.py", "rN"⟩
    [] 200 "body" rfl rfl rfl rfl rfl

end Gistapi
